import Mathlib

/-!
Verification development for `scripts/turbo-sync.py` (TurboGameSync).

The script is embedded shallowly:
* `transform_game` models `TurboGameSync.transform_game` (lines 102-140),
  with Python's partial dictionary/list accesses (`d[k]`, `l[0]`) made
  explicit as `Except String` failures;
* `bulk_update_row` models the per-matched-row semantics of the single SQL
  UPDATE statement in `TurboGameSync.bulk_update_database` (lines 162-190),
  with SQL NULL rendered as `Option.none`;
* `fetch_igdb_batch` models the status handling of
  `TurboGameSync.fetch_igdb_batch` (lines 91-100), the HTTP response being
  passed in as data (status code plus decoded body);
* `chunkList`/`dispatch_sub_chunks` model the partitioning and the
  parallelism cap of `TurboGameSync.run` (lines 247-252).
-/

set_option autoImplicit false

namespace TurboSync

universe u v

/-! ### Configuration constants (turbo-sync.py lines 35-38) -/

def PARALLEL_IGDB_REQUESTS : Nat := 20

def BATCH_SIZE : Nat := 500

def CHUNK_SIZE : Nat := 5000

/-! ### Python `str.replace`

`replaceFrom pat rep l` replaces every non-overlapping occurrence of `pat`
in `l` with `rep`, scanning left to right and never rescanning the inserted
replacement text — the semantics of Python's `str.replace` for a non-empty
pattern (the script only ever passes non-empty patterns). -/

def replaceFromAux (pat rep : List Char) : Nat → List Char → List Char
  | _, [] => []
  | 0, _ :: _ => []
  | fuel + 1, c :: rest =>
    if pat.isPrefixOf (c :: rest) then
      rep ++ replaceFromAux pat rep fuel (rest.drop (pat.length - 1))
    else
      c :: replaceFromAux pat rep fuel rest

/-- Each scanning step consumes at least one character, so fuel equal to the
length of the scanned list makes the fuel bound unreachable. -/
def replaceFrom (pat rep l : List Char) : List Char :=
  replaceFromAux pat rep l.length l

def pyReplace (s pat rep : String) : String :=
  ⟨replaceFrom pat.data rep.data s.data⟩

/-- The image-URL rewriting applied to cover and screenshot URLs
(turbo-sync.py lines 110-112 and 115-116):
`.replace('//images.igdb.com', 'https://images.igdb.com').replace('t_thumb', 't_1080p')`. -/
def rewriteURL (u : String) : String :=
  pyReplace (pyReplace u "//images.igdb.com" "https://images.igdb.com") "t_thumb" "t_1080p"

/-- Predicate `containsSub pat l`: whether `pat` occurs in `l` as a contiguous
sublist (used to delimit the fixed points of `replaceFrom`). -/
def containsSub (pat : List Char) : List Char → Bool
  | [] => pat.isEmpty
  | c :: rest => pat.isPrefixOf (c :: rest) || containsSub pat rest

/-! ### Data model

`RemoteRecord` is the decoded JSON object returned by the IGDB `/games`
endpoint for one title, restricted to the fields the script's query
projects.  A `none` field models an absent JSON key; nested objects whose
sub-field may be absent carry an `Option` inside. -/

structure NamedObj where
  name : Option String := none
deriving DecidableEq, Repr

structure UrlObj where
  url : Option String := none
deriving DecidableEq, Repr

/-- One element of `involved_companies`: `company.get('company', {}).get('name')`
is the (safe) nested access the script performs, collapsed here into
`company_name`; the role flags are the booleans the script tests for
truthiness. -/
structure InvolvedCompany where
  company_name : Option String := none
  developer : Bool := false
  publisher : Bool := false
deriving DecidableEq, Repr

structure RemoteRecord where
  id : Int
  summary : Option String := none
  first_release_date : Option Int := none
  cover : Option UrlObj := none
  platforms : Option (List NamedObj) := none
  screenshots : Option (List UrlObj) := none
  total_rating : Option ℚ := none
  total_rating_count : Option Int := none
  aggregated_rating : Option ℚ := none
  franchises : Option (List NamedObj) := none
  collections : Option (List NamedObj) := none
  alternative_names : Option (List NamedObj) := none
  involved_companies : Option (List InvolvedCompany) := none
  similar_games : Option (List Int) := none
  dlcs : Option (List Int) := none
  expansions : Option (List Int) := none
  category : Option Int := none
  parent_game : Option Int := none
deriving DecidableEq, Repr

/-- The dictionary built by `transform_game`.  `developer`/`publisher` hold
the value the loop of lines 132-138 left in the dictionary (`none` both when
no company carried the flag and when the flagged company's name was absent —
the SQL layer reads the JSON through `->>`, which collapses a missing key
and a `null` value to the same SQL NULL). -/
structure TransformedRecord where
  igdb_id : Int
  summary : Option String
  release_date : Option Int
  cover_url : Option String
  platforms : List String
  screenshots : List String
  total_rating : Int
  rating_count : Int
  metacritic_score : Int
  franchise_name : Option String
  collection_name : Option String
  alternative_names : List String
  similar_game_ids : List Int
  dlc_ids : List Int
  expansion_ids : List Int
  category : Option Int
  parent_game : Option Int
  developer : Option String
  publisher : Option String
deriving DecidableEq, Repr

/-! ### Python partial accesses -/

deriving instance DecidableEq for Except

/-- Python `d[k]` on a field that may be absent: `KeyError` when missing. -/
def pyField {α : Type u} (v : Option α) : Except String α :=
  match v with
  | some x => .ok x
  | none => .error "KeyError"

/-- Python `l[0]`: `IndexError` on an empty list. -/
def pyIndex0 {α : Type u} (l : List α) : Except String α :=
  match l.head? with
  | some x => .ok x
  | none => .error "IndexError"

/-- Python's `round` (round half to even), on the rational model of the
API's numeric rating values, computed on the numerator/denominator pair. -/
def pyRound (q : ℚ) : Int :=
  let f := Int.fdiv q.num q.den
  let r2 := 2 * (q.num - f * q.den)
  if r2 < q.den then f
  else if (q.den : Int) < r2 then f + 1
  else if f % 2 = 0 then f else f + 1

/-- Model of `datetime.fromtimestamp(ts).date()` (lines 107-109), at UTC day
granularity; it raises when the timestamp falls outside the representable
`datetime` range (year 1 to 9999). -/
def fromtimestampDate (ts : Int) : Except String Int :=
  if ts < -62135596800 ∨ 253402300799 < ts then .error "ValueError"
  else .ok (Int.fdiv ts 86400)

/-! ### The transformer (turbo-sync.py lines 102-140) -/

/-- Line 110: `igdb_data.get('cover', {}).get('url', '')`. -/
def coverUrlRaw (r : RemoteRecord) : String :=
  match r.cover with
  | some c => c.url.getD ""
  | none => ""

/-- The loop of lines 134-136: every company whose `developer` flag is truthy
re-assigns `transformed['developer']`, so the accumulator keeps the latest
flagged company's (optional) name. -/
def extractDeveloper (companies : List InvolvedCompany) : Option String :=
  companies.foldl (fun acc c => if c.developer then c.company_name else acc) none

/-- The loop of lines 134, 137-138, for the `publisher` flag. -/
def extractPublisher (companies : List InvolvedCompany) : Option String :=
  companies.foldl (fun acc c => if c.publisher then c.company_name else acc) none

/-- Lines 107-109: `datetime.fromtimestamp(igdb_data['first_release_date']).date()
if igdb_data.get('first_release_date') else None` — the truthiness test makes
both an absent timestamp and a zero timestamp yield `None`. -/
def release_date_of (r : RemoteRecord) : Except String (Option Int) :=
  match r.first_release_date with
  | some ts => if ts = 0 then pure none else (fromtimestampDate ts).map some
  | none => pure none

/-- Lines 110-112: rewrite the raw cover URL, then `... or None` collapses a
falsy (empty) string to `None`. -/
def cover_url_of (r : RemoteRecord) : Option String :=
  if rewriteURL (coverUrlRaw r) = "" then none else some (rewriteURL (coverUrlRaw r))

/-- Line 113: `[p['name'] for p in igdb_data.get('platforms', [])]`. -/
def platforms_of (r : RemoteRecord) : Except String (List String) :=
  (r.platforms.getD []).mapM (fun p => pyField p.name)

/-- Lines 114-118: `[s['url'].replace(...).replace(...) for s in
igdb_data.get('screenshots', [])]` — no `or None` here, unlike the cover. -/
def screenshots_of (r : RemoteRecord) : Except String (List String) :=
  (r.screenshots.getD []).mapM (fun s => (pyField s.url).map rewriteURL)

/-- Line 122: `igdb_data.get('franchises', [{}])[0].get('name')` — the
`[{}]` default only guards an ABSENT key; a present-but-empty list reaches
`[0]` and raises `IndexError`. -/
def franchise_name_of (r : RemoteRecord) : Except String (Option String) :=
  (pyIndex0 (r.franchises.getD [{}])).map (fun o => o.name)

/-- Line 123: `igdb_data.get('collections', [{}])[0].get('name')`. -/
def collection_name_of (r : RemoteRecord) : Except String (Option String) :=
  (pyIndex0 (r.collections.getD [{}])).map (fun o => o.name)

/-- Line 124: `[a['name'] for a in igdb_data.get('alternative_names', [])]`. -/
def alternative_names_of (r : RemoteRecord) : Except String (List String) :=
  (r.alternative_names.getD []).mapM (fun a => pyField a.name)

/-- Model of `TurboGameSync.transform_game` (lines 102-140).  Python raises where the
result is `.error`: a `KeyError` from `p['name']` / `s['url']` / `a['name']`,
an `IndexError` from `[...][0]` on a present-but-empty `franchises` or
`collections` list, and a range error from `datetime.fromtimestamp`.  The
fallible components are evaluated in the order the dict literal evaluates
them. -/
def transform_game (r : RemoteRecord) : Except String TransformedRecord := do
  let release_date ← release_date_of r
  let platforms ← platforms_of r
  let screenshots ← screenshots_of r
  let franchise_name ← franchise_name_of r
  let collection_name ← collection_name_of r
  let alternative_names ← alternative_names_of r
  let companies := r.involved_companies.getD []
  pure {
    igdb_id := r.id
    summary := r.summary
    release_date := release_date
    cover_url := cover_url_of r
    platforms := platforms
    screenshots := screenshots
    total_rating := pyRound (r.total_rating.getD 0)
    rating_count := r.total_rating_count.getD 0
    metacritic_score := pyRound (r.aggregated_rating.getD 0)
    franchise_name := franchise_name
    collection_name := collection_name
    alternative_names := alternative_names
    similar_game_ids := r.similar_games.getD []
    dlc_ids := r.dlcs.getD []
    expansion_ids := r.expansions.getD []
    category := r.category
    parent_game := r.parent_game
    developer := extractDeveloper companies
    publisher := extractPublisher companies
  }

/-- The record `transform_game` returns once every fallible component has
succeeded with the given values. -/
def builtRecord (r : RemoteRecord) (rd : Option Int) (pl sc : List String)
    (fn cn : Option String) (an : List String) : TransformedRecord :=
  { igdb_id := r.id
    summary := r.summary
    release_date := rd
    cover_url := cover_url_of r
    platforms := pl
    screenshots := sc
    total_rating := pyRound (r.total_rating.getD 0)
    rating_count := r.total_rating_count.getD 0
    metacritic_score := pyRound (r.aggregated_rating.getD 0)
    franchise_name := fn
    collection_name := cn
    alternative_names := an
    similar_game_ids := r.similar_games.getD []
    dlc_ids := r.dlcs.getD []
    expansion_ids := r.expansions.getD []
    category := r.category
    parent_game := r.parent_game
    developer := extractDeveloper (r.involved_companies.getD [])
    publisher := extractPublisher (r.involved_companies.getD []) }

/-! ### The writer (turbo-sync.py lines 142-197)

`CatalogRow` is one row of the `game` table, restricted to the columns the
UPDATE statement touches; `none` is SQL NULL. -/

structure CatalogRow where
  igdb_id : Int
  summary : Option String := none
  cover_url : Option String := none
  release_date : Option Int := none
  developer : Option String := none
  publisher : Option String := none
  platforms : Option (List String) := none
  screenshots : Option (List String) := none
  total_rating : Option Int := none
  rating_count : Option Int := none
  metacritic_score : Option Int := none
  franchise_name : Option String := none
  collection_name : Option String := none
  alternative_names : Option (List String) := none
  category : Option Int := none
  parent_game : Option Int := none
  last_synced : Option Int := none
  data_source : Option String := none
deriving DecidableEq, Repr

/-- SQL `COALESCE(a, b)` on two nullable values. -/
def sqlCoalesce {α : Type u} (a b : Option α) : Option α :=
  match a with
  | some x => some x
  | none => b

/-- SQL `GREATEST`, which ignores NULL arguments and is NULL only when every
argument is. -/
def sqlGreatest (a b : Option Int) : Option Int :=
  match a, b with
  | some x, some y => some (max x y)
  | some x, none => some x
  | none, some y => some y
  | none, none => none

/-- Model of `CASE WHEN array_length(arr, 1) > 0 THEN arr ELSE NULL END` (lines 171,
175): `array_length` is NULL on an empty array, so both a NULL column and an
empty array fall to the ELSE branch. -/
def nonEmptyOrNull (a : Option (List String)) : Option (List String) :=
  match a with
  | some l => if 0 < l.length then some l else none
  | none => none

/-- Per-matched-row semantics of the UPDATE statement of
`TurboGameSync.bulk_update_database` (lines 162-190), for a catalog row `g`
joined on `igdb_id` with a staged transformed record `t`.  `now` is the SQL
`NOW()` value.  The transformer always emits `rating_count`, `total_rating`
and `metacritic_score` as integers, so their JSON extractions are never
NULL; `COALESCE((t.data->>'rating_count')::INTEGER, 0)` therefore reduces to
the incoming value itself. -/
def bulk_update_row (now : Int) (g : CatalogRow) (t : TransformedRecord) : CatalogRow :=
  { g with
    summary := sqlCoalesce g.summary t.summary
    cover_url := sqlCoalesce g.cover_url t.cover_url
    release_date := sqlCoalesce g.release_date t.release_date
    developer := sqlCoalesce g.developer t.developer
    publisher := sqlCoalesce g.publisher t.publisher
    platforms := sqlCoalesce (nonEmptyOrNull g.platforms) (some t.platforms)
    screenshots := sqlCoalesce (nonEmptyOrNull g.screenshots) (some t.screenshots)
    total_rating := sqlCoalesce g.total_rating (some t.total_rating)
    rating_count := sqlGreatest g.rating_count (some t.rating_count)
    metacritic_score := some t.metacritic_score
    franchise_name := sqlCoalesce g.franchise_name t.franchise_name
    collection_name := sqlCoalesce g.collection_name t.collection_name
    alternative_names := some t.alternative_names
    category := sqlCoalesce g.category t.category
    parent_game := sqlCoalesce g.parent_game t.parent_game
    last_synced := some now
    data_source := some "turbo_sync" }

/-! ### The fetcher (turbo-sync.py lines 72-100) and the batch fan-out -/

/-- Status handling of `TurboGameSync.fetch_igdb_batch` (lines 91-100): the
HTTP response is passed in as data (status code and decoded JSON body); a
200 yields the body, anything else logs and yields the empty list. -/
def fetch_igdb_batch (status : Nat) (body : List RemoteRecord) : List RemoteRecord :=
  if status = 200 then body else []

/-- The flattening loop of `TurboGameSync.process_chunk` (lines 213-216)
applied to the per-batch responses: each batch's contribution is whatever
`fetch_igdb_batch` returned for it. -/
def gather_batches (resps : List (Nat × List RemoteRecord)) : List RemoteRecord :=
  (resps.map (fun p => fetch_igdb_batch p.1 p.2)).flatten

/-- The slicing pattern `[l[i:i+n] for i in range(0, len(l), n)]` used at
lines 206, 247 and 251, for a positive step `n`. -/
def chunkList {α : Type u} (n : Nat) : List α → List (List α)
  | [] => []
  | c :: rest => (c :: rest).take n :: chunkList n (rest.drop (n - 1))
termination_by l => l.length
decreasing_by
  simp only [List.length_drop, List.length_cons]
  omega

/-- Lines 251-252 of `TurboGameSync.run`: the chunk is sliced into
sub-batches of `BATCH_SIZE` rows, and only the first
`PARALLEL_IGDB_REQUESTS` sub-batches are turned into tasks. -/
def dispatch_sub_chunks {α : Type u} (chunk : List α) : List (List α) :=
  (chunkList BATCH_SIZE chunk).take PARALLEL_IGDB_REQUESTS

/-! ### Sample data, used to instantiate the universally quantified theorems -/

/-- A concrete transformed record (the shape `transform_game` emits for the
end-to-end scenario of spec §8). -/
def tSample : TransformedRecord :=
  { igdb_id := 42, summary := some "A game.", release_date := some 19000,
    cover_url := some "https://images.igdb.com/t_1080p/abc.jpg",
    platforms := ["PC"], screenshots := [], total_rating := 80, rating_count := 25,
    metacritic_score := 77, franchise_name := some "F", collection_name := some "C",
    alternative_names := ["Alt"], similar_game_ids := [], dlc_ids := [],
    expansion_ids := [], category := some 0, parent_game := some 7,
    developer := some "Dev", publisher := some "Pub" }

/-- A minimal remote record: only the mandatory identifier. -/
def rEpoch : RemoteRecord := { id := 1 }

/-- What `transform_game` returns for `rEpoch` (with any falsy release
timestamp). -/
def tEpoch : TransformedRecord :=
  { igdb_id := 1, summary := none, release_date := none, cover_url := none,
    platforms := [], screenshots := [], total_rating := 0, rating_count := 0,
    metacritic_score := 0, franchise_name := none, collection_name := none,
    alternative_names := [], similar_game_ids := [], dlc_ids := [],
    expansion_ids := [], category := none, parent_game := none,
    developer := none, publisher := none }

/-- A remote record satisfying every totality guard non-trivially. -/
def rGuard : RemoteRecord :=
  { id := 2, first_release_date := some 1000000,
    platforms := some [{ name := some "PC" }],
    franchises := some [{ name := some "Zelda" }] }

/-- A remote record whose cover URL and single screenshot URL are both the
empty string. -/
def rScreens : RemoteRecord :=
  { id := 9, cover := some { url := some "" },
    screenshots := some [{ url := some "" }] }

/-- What `transform_game` returns for `rScreens`: the cover collapsed to
absent, the screenshot kept as an empty string. -/
def tScreens : TransformedRecord :=
  { igdb_id := 9, summary := none, release_date := none, cover_url := none,
    platforms := [], screenshots := [""], total_rating := 0, rating_count := 0,
    metacritic_score := 0, franchise_name := none, collection_name := none,
    alternative_names := [], similar_game_ids := [], dlc_ids := [],
    expansion_ids := [], category := none, parent_game := none,
    developer := none, publisher := none }

/-- A concrete catalog row on which every enrichable scalar column is
already populated. -/
def gFull : CatalogRow :=
  { igdb_id := 42, summary := some "Old summary", cover_url := some "old.jpg",
    release_date := some 100, developer := some "OldDev", publisher := some "OldPub",
    platforms := some ["Amiga"], screenshots := some ["s.jpg"], total_rating := some 50,
    rating_count := some 10, metacritic_score := some 60, franchise_name := some "OldF",
    collection_name := some "OldC", alternative_names := some ["OldAlt"],
    category := some 1, parent_game := some 3 }

/-- A partially filled catalog row — summary populated, developer (and the
other scalars) NULL — the typical row the sync job processes. -/
def gMixed : CatalogRow :=
  { igdb_id := 43, summary := some "Kept summary", rating_count := some 10 }

end TurboSync

namespace TurboSync

/-! ## Theorems -/

universe u' v'

theorem sqlCoalesce_of_isSome {α : Type u'} (a b : Option α) (h : a.isSome) :
    sqlCoalesce a b = a := by
  cases a with
  | none => simp [Option.isSome] at h
  | some x => rfl

/-- C1: on any catalog row joined with any staged record, each of the nine
fill-if-empty scalar columns (summary, cover URL, release date, developer,
publisher, franchise name, collection name, category, parent linkage) is
left unchanged by the merge whenever its own existing value is non-NULL —
in particular whenever it is non-empty.  The nine preservation properties
are independent: each implication is guarded only by its own field, so a
partially filled row (say summary populated, developer NULL) still gets
summary preservation.  The UPDATE guards each of these columns with
`COALESCE(g.col, incoming)`. -/
theorem merge_preserves_nonempty_scalars (now : Int) (g : CatalogRow) (t : TransformedRecord) :
    (g.summary.isSome → (bulk_update_row now g t).summary = g.summary) ∧
    (g.cover_url.isSome → (bulk_update_row now g t).cover_url = g.cover_url) ∧
    (g.release_date.isSome → (bulk_update_row now g t).release_date = g.release_date) ∧
    (g.developer.isSome → (bulk_update_row now g t).developer = g.developer) ∧
    (g.publisher.isSome → (bulk_update_row now g t).publisher = g.publisher) ∧
    (g.franchise_name.isSome → (bulk_update_row now g t).franchise_name = g.franchise_name) ∧
    (g.collection_name.isSome → (bulk_update_row now g t).collection_name = g.collection_name) ∧
    (g.category.isSome → (bulk_update_row now g t).category = g.category) ∧
    (g.parent_game.isSome → (bulk_update_row now g t).parent_game = g.parent_game) :=
  ⟨fun h => sqlCoalesce_of_isSome _ _ h, fun h => sqlCoalesce_of_isSome _ _ h,
   fun h => sqlCoalesce_of_isSome _ _ h, fun h => sqlCoalesce_of_isSome _ _ h,
   fun h => sqlCoalesce_of_isSome _ _ h, fun h => sqlCoalesce_of_isSome _ _ h,
   fun h => sqlCoalesce_of_isSome _ _ h, fun h => sqlCoalesce_of_isSome _ _ h,
   fun h => sqlCoalesce_of_isSome _ _ h⟩

/-- Witness for C1, at a mixed row (summary populated, developer NULL —
summary preservation holds on its own) and at a fully populated row merged
with the §8 sample record (all nine preservations at once). -/
theorem merge_preserves_nonempty_scalars_app :
    (gMixed.summary.isSome ∧ gMixed.developer = none ∧
     (bulk_update_row 0 gMixed tSample).summary = gMixed.summary) ∧
    ((gFull.summary.isSome ∧ gFull.cover_url.isSome ∧ gFull.release_date.isSome ∧
      gFull.developer.isSome ∧ gFull.publisher.isSome ∧ gFull.franchise_name.isSome ∧
      gFull.collection_name.isSome ∧ gFull.category.isSome ∧ gFull.parent_game.isSome) ∧
     ((bulk_update_row 0 gFull tSample).summary = gFull.summary ∧
      (bulk_update_row 0 gFull tSample).cover_url = gFull.cover_url ∧
      (bulk_update_row 0 gFull tSample).release_date = gFull.release_date ∧
      (bulk_update_row 0 gFull tSample).developer = gFull.developer ∧
      (bulk_update_row 0 gFull tSample).publisher = gFull.publisher ∧
      (bulk_update_row 0 gFull tSample).franchise_name = gFull.franchise_name ∧
      (bulk_update_row 0 gFull tSample).collection_name = gFull.collection_name ∧
      (bulk_update_row 0 gFull tSample).category = gFull.category ∧
      (bulk_update_row 0 gFull tSample).parent_game = gFull.parent_game)) :=
  ⟨⟨by decide, by decide,
    (merge_preserves_nonempty_scalars 0 gMixed tSample).1 (by decide)⟩,
   ⟨by decide,
    ⟨(merge_preserves_nonempty_scalars 0 gFull tSample).1 (by decide),
     (merge_preserves_nonempty_scalars 0 gFull tSample).2.1 (by decide),
     (merge_preserves_nonempty_scalars 0 gFull tSample).2.2.1 (by decide),
     (merge_preserves_nonempty_scalars 0 gFull tSample).2.2.2.1 (by decide),
     (merge_preserves_nonempty_scalars 0 gFull tSample).2.2.2.2.1 (by decide),
     (merge_preserves_nonempty_scalars 0 gFull tSample).2.2.2.2.2.1 (by decide),
     (merge_preserves_nonempty_scalars 0 gFull tSample).2.2.2.2.2.2.1 (by decide),
     (merge_preserves_nonempty_scalars 0 gFull tSample).2.2.2.2.2.2.2.1 (by decide),
     (merge_preserves_nonempty_scalars 0 gFull tSample).2.2.2.2.2.2.2.2 (by decide)⟩⟩⟩

/-- C3: for a catalog row whose stored rating count is `b`, the merged
rating count is exactly `max b incoming` (the UPDATE computes
`GREATEST(g.rating_count, COALESCE(incoming, 0))` and the transformer
always stages an integer), and it never decreases. -/
theorem rating_count_monotone_max (now : Int) (g : CatalogRow) (t : TransformedRecord)
    (b : Int) (hb : g.rating_count = some b) :
    (bulk_update_row now g t).rating_count = some (max b t.rating_count) ∧
    b ≤ max b t.rating_count := by
  refine ⟨?_, le_max_left _ _⟩
  show sqlGreatest g.rating_count (some t.rating_count) = some (max b t.rating_count)
  rw [hb]
  rfl

/-- Witness for C3: a stored count of 10 merged with an incoming count of 25
becomes 25 (the §8 end-to-end scenario). -/
theorem rating_count_monotone_max_app :
    gFull.rating_count = some 10 ∧
    ((bulk_update_row 0 gFull tSample).rating_count = some (max 10 tSample.rating_count) ∧
     10 ≤ max 10 tSample.rating_count) :=
  ⟨by decide, rating_count_monotone_max 0 gFull tSample 10 (by decide)⟩

/-- C6: the merge unconditionally replaces the `alternative_names` column
with the incoming list (`alternative_names = ARRAY(SELECT
jsonb_array_elements_text(...))` carries no `COALESCE` guard), for every
existing value — in particular for a non-empty existing list. -/
theorem alternative_names_always_overwritten (now : Int) (g : CatalogRow)
    (t : TransformedRecord) :
    (bulk_update_row now g t).alternative_names = some t.alternative_names := rfl

/-! ### Batch fan-out: chunking lemmas -/

theorem take_add_append {α : Type u'} (m n : Nat) (l : List α) :
    l.take (m + n) = l.take m ++ (l.drop m).take n := by
  induction m generalizing l with
  | zero => simp
  | succ m ih =>
    cases l with
    | nil => simp
    | cons c rest =>
      rw [Nat.succ_add, List.take_succ_cons, ih rest, List.take_succ_cons,
        List.drop_succ_cons, List.cons_append]

theorem flatten_take_chunkList {α : Type u'} (n p : Nat) (hn : 0 < n) (l : List α) :
    ((chunkList n l).take p).flatten = l.take (n * p) := by
  induction p generalizing l with
  | zero => simp
  | succ p ih =>
    cases l with
    | nil => simp [chunkList]
    | cons c rest =>
      have hdrop : rest.drop (n - 1) = (c :: rest).drop n := by
        cases n with
        | zero => omega
        | succ m => simp
      rw [chunkList, List.take_succ_cons, List.flatten_cons, ih, hdrop,
        show n * (p + 1) = n + n * p by ring, take_add_append]

/-- C8: lines 251-252 slice a chunk into `BATCH_SIZE`-row sub-batches and
dispatch only the first `PARALLEL_IGDB_REQUESTS` of them, so at most that
many sub-batches become tasks, and the rows the dispatched sub-batches
cover are exactly the first `BATCH_SIZE * PARALLEL_IGDB_REQUESTS` rows of
the chunk: any row beyond that bound belongs to no dispatched sub-batch and
is silently dropped from the cycle. -/
theorem dispatch_caps_sub_batches (chunk : List Int) :
    (dispatch_sub_chunks chunk).length ≤ PARALLEL_IGDB_REQUESTS ∧
    (dispatch_sub_chunks chunk).flatten = chunk.take (BATCH_SIZE * PARALLEL_IGDB_REQUESTS) := by
  constructor
  · exact List.length_take_le _ _
  · exact flatten_take_chunkList BATCH_SIZE PARALLEL_IGDB_REQUESTS (by decide) chunk

/-! ### Fetch failure confinement -/

/-- C7: a batch whose HTTP response has a non-200 status contributes the
empty record list (lines 98-100 log and return `[]` instead of raising),
and removing such a batch from a cycle's response list leaves the gathered
records of the other batches unchanged — the failure is confined to that
batch. -/
theorem failed_batch_confined (status : Nat) (body : List RemoteRecord)
    (h : status ≠ 200) :
    fetch_igdb_batch status body = [] ∧
    ∀ pre post : List (Nat × List RemoteRecord),
      gather_batches (pre ++ (status, body) :: post) = gather_batches (pre ++ post) := by
  have h1 : fetch_igdb_batch status body = [] := by
    simp [fetch_igdb_batch, h]
  refine ⟨h1, fun pre post => ?_⟩
  simp [gather_batches, h1]

/-- Witness for C7 at status 500. -/
theorem failed_batch_confined_app :
    (500 ≠ 200) ∧
    (fetch_igdb_batch 500 [] = [] ∧
     gather_batches ([(200, [])] ++ (500, []) :: []) = gather_batches ([(200, [])] ++ [])) :=
  ⟨by decide,
   ⟨(failed_batch_confined 500 [] (by decide)).1,
    (failed_batch_confined 500 [] (by decide)).2 [(200, [])] []⟩⟩

/-! ### Developer/publisher extraction -/

theorem foldl_role_pick (flag : InvolvedCompany → Bool) (cs : List InvolvedCompany)
    (acc : Option String) :
    cs.foldl (fun a c => if flag c then c.company_name else a) acc
      = ((cs.filter flag).getLast?).elim acc (fun c => c.company_name) := by
  induction cs generalizing acc with
  | nil => rfl
  | cons c cs ih =>
    rw [List.foldl_cons, ih, List.filter_cons]
    cases hf : flag c with
    | false => simp
    | true =>
      simp only [if_pos trivial]
      cases hl : cs.filter flag with
      | nil => simp
      | cons d l' =>
        rw [List.getLast?_cons_cons]
        have : ((d :: l').getLast?).isSome := by
          rw [List.getLast?_isSome]
          exact List.cons_ne_nil d l'
        obtain ⟨x, hx⟩ := Option.isSome_iff_exists.mp this
        rw [hx]
        rfl

/-- C2 counterexample: for an involved-companies list with two entries both
flagged as developer, the transform stores the SECOND company's name, not
the first — the loop of lines 134-136 re-assigns the key on every flagged
entry, so the claimed first-match-wins rule fails. -/
theorem two_developers_first_not_selected :
    (transform_game { id := 7, involved_companies := some [⟨some "Studio A", true, false⟩, ⟨some "Studio B", true, false⟩] }).map (fun t => t.developer) = .ok (some "Studio B") ∧
    (Except.ok (some "Studio B") : Except String (Option String)) ≠ .ok (some "Studio A") :=
  ⟨rfl, by decide⟩

/-- C2 amended: the per-role extraction is last-match-wins, not first-match:
for every involved-companies list, the developer field ends up holding the
company name of the LAST entry flagged as developer (absent when no entry
carries the flag), and likewise per the publisher flag. -/
theorem role_extraction_last_match_wins (cs : List InvolvedCompany) :
    extractDeveloper cs
      = ((cs.filter (fun c => c.developer)).getLast?).elim none (fun c => c.company_name) ∧
    extractPublisher cs
      = ((cs.filter (fun c => c.publisher)).getLast?).elim none (fun c => c.company_name) :=
  ⟨foldl_role_pick _ cs none, foldl_role_pick _ cs none⟩

/-! ### Plumbing for `Except` and `List.mapM` -/

theorem bindOk {ε α β : Type} (a : α) (k : α → Except ε β) :
    (Except.ok a >>= k) = k a := rfl

theorem bindErr {ε α β : Type} (e : ε) (k : α → Except ε β) :
    ((Except.error e : Except ε α) >>= k) = Except.error e := rfl

theorem mapM_ok_of_forall {α β : Type} (f : α → Except String β) (l : List α)
    (h : ∀ a ∈ l, ∃ b, f a = .ok b) :
    ∃ out, l.mapM f = Except.ok out ∧ out.length = l.length := by
  induction l with
  | nil => exact ⟨[], rfl, rfl⟩
  | cons a l ih =>
    obtain ⟨b, hb⟩ := h a (List.mem_cons_self a l)
    obtain ⟨out, hout, hlen⟩ := ih (fun x hx => h x (List.mem_cons_of_mem a hx))
    refine ⟨b :: out, ?_, by simp [hlen]⟩
    rw [List.mapM_cons, hb, bindOk, hout, bindOk]
    rfl

theorem mapM_ok_inv {α β : Type} (f : α → Except String β) (l : List α) (out : List β)
    (h : l.mapM f = .ok out) :
    out.length = l.length ∧ ∀ a ∈ l, ∀ b, f a = .ok b → b ∈ out := by
  induction l generalizing out with
  | nil =>
    rw [List.mapM_nil] at h
    injection h with h
    subst h
    exact ⟨rfl, by simp⟩
  | cons a l ih =>
    rw [List.mapM_cons] at h
    cases hfa : f a with
    | error e => rw [hfa, bindErr] at h; exact Except.noConfusion h
    | ok b =>
      rw [hfa, bindOk] at h
      cases hml : l.mapM f with
      | error e => rw [hml, bindErr] at h; exact Except.noConfusion h
      | ok bs =>
        rw [hml, bindOk] at h
        injection h with h
        subst h
        obtain ⟨hlen, hmem⟩ := ih bs hml
        refine ⟨by simp [hlen], ?_⟩
        intro x hx b' hb'
        rcases List.mem_cons.mp hx with hx | hx
        · subst hx
          rw [hfa] at hb'
          injection hb' with hb'
          exact hb' ▸ List.mem_cons_self _ _
        · exact List.mem_cons_of_mem _ (hmem x hx b' hb')

/-- Success characterization of `transform_game`: if every fallible
component succeeds, the transform returns the built record. -/
theorem transform_game_eq_ok (r : RemoteRecord) (rd : Option Int) (pl sc : List String)
    (fn cn : Option String) (an : List String)
    (h1 : release_date_of r = .ok rd) (h2 : platforms_of r = .ok pl)
    (h3 : screenshots_of r = .ok sc) (h4 : franchise_name_of r = .ok fn)
    (h5 : collection_name_of r = .ok cn) (h6 : alternative_names_of r = .ok an) :
    transform_game r = .ok (builtRecord r rd pl sc fn cn an) := by
  unfold transform_game
  rw [h1, bindOk, h2, bindOk, h3, bindOk, h4, bindOk, h5, bindOk, h6, bindOk]
  rfl

/-- Inversion for a successful `transform_game`: every fallible component
succeeded and the result is the built record. -/
theorem transform_game_ok_inv (r : RemoteRecord) (t : TransformedRecord)
    (h : transform_game r = .ok t) :
    ∃ rd pl sc fn cn an,
      release_date_of r = .ok rd ∧ platforms_of r = .ok pl ∧
      screenshots_of r = .ok sc ∧ franchise_name_of r = .ok fn ∧
      collection_name_of r = .ok cn ∧ alternative_names_of r = .ok an ∧
      t = builtRecord r rd pl sc fn cn an := by
  unfold transform_game at h
  cases h1 : release_date_of r with
  | error e => rw [h1, bindErr] at h; exact Except.noConfusion h
  | ok rd =>
  rw [h1, bindOk] at h
  cases h2 : platforms_of r with
  | error e => rw [h2, bindErr] at h; exact Except.noConfusion h
  | ok pl =>
  rw [h2, bindOk] at h
  cases h3 : screenshots_of r with
  | error e => rw [h3, bindErr] at h; exact Except.noConfusion h
  | ok sc =>
  rw [h3, bindOk] at h
  cases h4 : franchise_name_of r with
  | error e => rw [h4, bindErr] at h; exact Except.noConfusion h
  | ok fn =>
  rw [h4, bindOk] at h
  cases h5 : collection_name_of r with
  | error e => rw [h5, bindErr] at h; exact Except.noConfusion h
  | ok cn =>
  rw [h5, bindOk] at h
  cases h6 : alternative_names_of r with
  | error e => rw [h6, bindErr] at h; exact Except.noConfusion h
  | ok an =>
  rw [h6, bindOk] at h
  injection h with h
  exact ⟨rd, pl, sc, fn, cn, an, rfl, rfl, rfl, rfl, rfl, rfl, h.symm⟩

/-! ### Release-date truthiness -/

/-- C10: a present release timestamp equal to 0 (the Unix epoch) is
indistinguishable from an absent timestamp: the transform's whole output is
the same in the two cases, and the release date it produces is absent.  The
guard `if igdb_data.get('first_release_date')` treats the integer 0 as
falsy. -/
theorem epoch_timestamp_release_date_absent (r : RemoteRecord) :
    transform_game { r with first_release_date := some 0 }
      = transform_game { r with first_release_date := none } ∧
    ∀ t, transform_game { r with first_release_date := some 0 } = .ok t →
      t.release_date = none := by
  refine ⟨rfl, ?_⟩
  intro t ht
  obtain ⟨rd, pl, sc, fn, cn, an, h1, -, -, -, -, -, hbuild⟩ :=
    transform_game_ok_inv _ t ht
  have h1' : (Except.ok (none : Option Int) : Except String (Option Int)) = .ok rd := h1
  injection h1' with h1'
  rw [hbuild]
  show rd = none
  exact h1'.symm

/-- Witness for C10 at the minimal record. -/
theorem epoch_timestamp_release_date_absent_app :
    (transform_game { rEpoch with first_release_date := some 0 }
       = transform_game { rEpoch with first_release_date := none }) ∧
    tEpoch.release_date = none :=
  ⟨(epoch_timestamp_release_date_absent rEpoch).1,
   (epoch_timestamp_release_date_absent rEpoch).2 tEpoch (by decide)⟩

/-! ### URL rewriting -/

theorem replaceFromAux_of_not_contains (pat rep : List Char) (fuel : Nat) (l : List Char)
    (hfuel : l.length ≤ fuel) (h : containsSub pat l = false) :
    replaceFromAux pat rep fuel l = l := by
  induction fuel generalizing l with
  | zero =>
    cases l with
    | nil => rfl
    | cons c rest => simp at hfuel
  | succ fuel ih =>
    cases l with
    | nil => rfl
    | cons c rest =>
      rw [containsSub, Bool.or_eq_false_iff] at h
      obtain ⟨hp, hrest⟩ := h
      simp only [replaceFromAux, hp, Bool.false_eq_true, if_false]
      rw [ih rest (by simpa using Nat.lt_succ_iff.mp (Nat.lt_of_lt_of_le (Nat.lt_succ_self _) (by simpa using hfuel))) hrest]

theorem pyReplace_of_not_contains (s pat rep : String)
    (h : containsSub pat.data s.data = false) : pyReplace s pat rep = s := by
  unfold pyReplace replaceFrom
  rw [replaceFromAux_of_not_contains pat.data rep.data s.data.length s.data le_rfl h]

/-- C4 counterexample: the rewriting is NOT idempotent on an
already-rewritten URL.  The replacement text `https://images.igdb.com`
itself contains the pattern `//images.igdb.com`, so a second pass matches
again and prefixes a spurious extra `https:`. -/
theorem rewrite_not_idempotent_on_rewritten :
    rewriteURL "//images.igdb.com/t_thumb/abc.jpg"
      = "https://images.igdb.com/t_1080p/abc.jpg" ∧
    rewriteURL "https://images.igdb.com/t_1080p/abc.jpg"
      = "https:https://images.igdb.com/t_1080p/abc.jpg" ∧
    rewriteURL (rewriteURL "//images.igdb.com/t_thumb/abc.jpg")
      ≠ rewriteURL "//images.igdb.com/t_thumb/abc.jpg" :=
  ⟨by decide, by decide, by decide⟩

/-- C4 amended: the rewriting is a total function on strings, but it is
idempotent only away from its patterns: every string containing neither
`//images.igdb.com` nor `t_thumb` as a substring is a fixed point (and so
trivially idempotent there); on an already-rewritten URL still containing
the secure host, a second pass prefixes an extra `https:`
(see the counterexample). -/
theorem rewrite_fixed_point_outside_patterns (u : String)
    (h1 : containsSub "//images.igdb.com".data u.data = false)
    (h2 : containsSub "t_thumb".data u.data = false) :
    rewriteURL u = u ∧ rewriteURL (rewriteURL u) = rewriteURL u := by
  have hfix : rewriteURL u = u := by
    unfold rewriteURL
    rw [pyReplace_of_not_contains u _ _ h1, pyReplace_of_not_contains u _ _ h2]
  exact ⟨hfix, by simp [hfix]⟩

/-- Witness for the amended C4 at a pattern-free string. -/
theorem rewrite_fixed_point_outside_patterns_app :
    (containsSub "//images.igdb.com".data "hello".data = false ∧
     containsSub "t_thumb".data "hello".data = false) ∧
    (rewriteURL "hello" = "hello" ∧
     rewriteURL (rewriteURL "hello") = rewriteURL "hello") :=
  ⟨⟨by decide, by decide⟩,
   rewrite_fixed_point_outside_patterns "hello" (by decide) (by decide)⟩

/-! ### Totality of the transform -/

/-- C5 counterexample: on a remote record whose `franchises` key is present
but holds an empty list, `transform_game` raises (`[{}]` only substitutes
for an ABSENT key, so `[0]` hits an empty list), refuting totality. -/
theorem transform_raises_on_present_empty_franchises :
    transform_game { id := 5, franchises := some [] } = .error "IndexError" := rfl

theorem pyField_ok_of_isSome {α : Type u'} (v : Option α) (h : v.isSome) :
    ∃ b, pyField v = .ok b := by
  obtain ⟨x, hx⟩ := Option.isSome_iff_exists.mp h
  exact ⟨x, by rw [hx]; rfl⟩

/-- C5 amended: the transform is a deterministic pure function, but total
only on guarded records: it succeeds whenever (a) the release timestamp,
when present and nonzero, lies in the representable date range, (b)
`franchises` and `collections`, when present, are non-empty, and (c) every
nested platform / screenshot / alternative-name element carries its
projected sub-field.  Outside these guards it raises (see the
counterexample for a present-but-empty `franchises` list). -/
theorem transform_total_on_guarded_records (r : RemoteRecord)
    (hts : ∀ ts, r.first_release_date = some ts →
      ts = 0 ∨ (-62135596800 ≤ ts ∧ ts ≤ 253402300799))
    (hfr : r.franchises ≠ some []) (hco : r.collections ≠ some [])
    (hpl : ∀ p ∈ r.platforms.getD [], p.name.isSome)
    (hsc : ∀ s ∈ r.screenshots.getD [], s.url.isSome)
    (han : ∀ a ∈ r.alternative_names.getD [], a.name.isSome) :
    ∃ t, transform_game r = .ok t := by
  have hrd : ∃ rd, release_date_of r = .ok rd := by
    cases hts0 : r.first_release_date with
    | none => exact ⟨none, by simp only [release_date_of, hts0]; rfl⟩
    | some ts =>
      by_cases h0 : ts = 0
      · exact ⟨none, by simp only [release_date_of, hts0, h0, if_true, if_pos]; rfl⟩
      · rcases hts ts hts0 with h0' | ⟨hlo, hhi⟩
        · exact absurd h0' h0
        · refine ⟨some (Int.fdiv ts 86400), ?_⟩
          simp only [release_date_of, hts0, if_neg h0]
          rw [fromtimestampDate, if_neg (by omega)]
          rfl
  obtain ⟨rd, h1⟩ := hrd
  obtain ⟨pl, h2, -⟩ := mapM_ok_of_forall (fun p => pyField p.name)
    (r.platforms.getD []) (fun p hp => pyField_ok_of_isSome _ (hpl p hp))
  have hscreens : ∀ s ∈ r.screenshots.getD [],
      ∃ b, (pyField s.url).map rewriteURL = .ok b := by
    intro s hs
    obtain ⟨v, hv⟩ := Option.isSome_iff_exists.mp (hsc s hs)
    exact ⟨rewriteURL v, by rw [hv]; rfl⟩
  obtain ⟨sc, h3, -⟩ := mapM_ok_of_forall (fun s => (pyField s.url).map rewriteURL)
    (r.screenshots.getD []) hscreens
  have hfn : ∃ fn, franchise_name_of r = .ok fn := by
    cases hf : r.franchises with
    | none => exact ⟨none, by simp only [franchise_name_of, hf, pyIndex0]; rfl⟩
    | some l =>
      cases l with
      | nil => exact absurd hf hfr
      | cons x xs => exact ⟨x.name, by simp only [franchise_name_of, hf, pyIndex0]; rfl⟩
  obtain ⟨fn, h4⟩ := hfn
  have hcn : ∃ cn, collection_name_of r = .ok cn := by
    cases hc : r.collections with
    | none => exact ⟨none, by simp only [collection_name_of, hc, pyIndex0]; rfl⟩
    | some l =>
      cases l with
      | nil => exact absurd hc hco
      | cons x xs => exact ⟨x.name, by simp only [collection_name_of, hc, pyIndex0]; rfl⟩
  obtain ⟨cn, h5⟩ := hcn
  obtain ⟨an, h6, -⟩ := mapM_ok_of_forall (fun a => pyField a.name)
    (r.alternative_names.getD []) (fun a ha => pyField_ok_of_isSome _ (han a ha))
  exact ⟨builtRecord r rd pl sc fn cn an, transform_game_eq_ok r rd pl sc fn cn an h1 h2 h3 h4 h5 h6⟩

/-- Witness for the amended C5 at `rGuard`. -/
theorem transform_total_on_guarded_records_app :
    ((∀ ts, rGuard.first_release_date = some ts →
        ts = 0 ∨ (-62135596800 ≤ ts ∧ ts ≤ 253402300799)) ∧
     rGuard.franchises ≠ some [] ∧ rGuard.collections ≠ some [] ∧
     (∀ p ∈ rGuard.platforms.getD [], p.name.isSome) ∧
     (∀ s ∈ rGuard.screenshots.getD [], s.url.isSome) ∧
     (∀ a ∈ rGuard.alternative_names.getD [], a.name.isSome)) ∧
    ∃ t, transform_game rGuard = .ok t :=
  ⟨⟨fun ts h => by
      injection h with h
      subst h
      right
      exact ⟨by decide, by decide⟩,
    by decide, by decide, by decide, by decide, by decide⟩,
   transform_total_on_guarded_records rGuard
     (fun ts h => by
       injection h with h
       subst h
       right
       exact ⟨by decide, by decide⟩)
     (by decide) (by decide) (by decide) (by decide) (by decide)⟩

/-! ### Empty image URLs -/

/-- C9 counterexample: a screenshot whose URL is the empty string is NOT
collapsed — the transformed screenshot list retains the empty string as an
element (the list comprehension of lines 114-118 has no `or None`). -/
theorem empty_screenshot_url_retained :
    (transform_game { id := 9, screenshots := some [{ url := some "" }] }).map
      (fun t => t.screenshots) = .ok [""] ∧
    (Except.ok [""] : Except String (List String)) ≠ .ok [] :=
  ⟨rfl, by decide⟩

/-- C9 amended: the empty-string collapse holds for the cover URL (the
`or None` of line 112 maps an empty raw cover URL to an absent cover), but
not for screenshots: the transformed screenshot list has exactly one entry
per screenshot element, and an element whose URL is the empty string
contributes the empty string itself to the list. -/
theorem cover_collapse_screenshot_retention (r : RemoteRecord) (t : TransformedRecord)
    (h : transform_game r = .ok t) :
    (coverUrlRaw r = "" → t.cover_url = none) ∧
    t.screenshots.length = (r.screenshots.getD []).length ∧
    (∀ s ∈ r.screenshots.getD [], s.url = some "" → "" ∈ t.screenshots) := by
  obtain ⟨rd, pl, sc, fn, cn, an, -, -, h3, -, -, -, hbuild⟩ := transform_game_ok_inv r t h
  have h3' : (r.screenshots.getD []).mapM (fun s => (pyField s.url).map rewriteURL)
      = .ok sc := h3
  subst hbuild
  refine ⟨?_, ?_, ?_⟩
  · intro hcov
    show cover_url_of r = none
    unfold cover_url_of
    rw [hcov]
    rfl
  · exact (mapM_ok_inv _ _ sc h3').1
  · intro s hs hurl
    show "" ∈ sc
    apply (mapM_ok_inv (fun s => (pyField s.url).map rewriteURL) _ sc h3').2 s hs
    rw [hurl]
    rfl

/-- Witness for the amended C9 at `rScreens`. -/
theorem cover_collapse_screenshot_retention_app :
    transform_game rScreens = .ok tScreens ∧
    ((coverUrlRaw rScreens = "" → tScreens.cover_url = none) ∧
     tScreens.screenshots.length = (rScreens.screenshots.getD []).length ∧
     (∀ s ∈ rScreens.screenshots.getD [], s.url = some "" → "" ∈ tScreens.screenshots)) :=
  ⟨by decide, cover_collapse_screenshot_retention rScreens tScreens (by decide)⟩

end TurboSync
